import Mathlib

/-!
# Verification of the lead-ingestion core

A shallow embedding, in Lean 4, of the lead-ingestion core shared by the
repository's server variants:

* the JSON-file variant (`updateData` / `readData` write queue, full-history
  duplicate scan, admin query endpoints) — namespace `JsonStore`;
* the Feishu variant (`backend/server.js`: in-memory duplicate table,
  records persisted by an outbound call) — namespace `Feishu`;
* the SQLite variant's startup migration, which is documented by the backend
  README but whose server file is not part of the sources — modelled from the
  spec in namespace `Migration`.

Conventions of the embedding:

* JavaScript millisecond timestamps are `Nat`.  A record's `createdAt` is kept
  as the millisecond timestamp itself; `new Date(t).toISOString()` followed by
  `Date.parse` is the identity on such timestamps, so the ISO round trip is
  dropped.
* `Map` objects keyed by strings become association lists
  (`List (String × _)`) with `Map.get`/`Map.set` semantics (`lookupAssoc`,
  `setAssoc`): at most one binding per key, `set` overwrites in place.
* Raw request-body fields are `Option String` / `Option (List String)`
  (`none` = the field is absent or not a string/array, matching the
  `typeof value !== "string"` / `Array.isArray` guards).
* A fallible persistence call (`fs.writeFile`, the Feishu record call) is an
  explicit `persistOk : Bool` argument; a failed call is modelled as leaving
  the durable contents untouched and making the surrounding promise reject.
-/

namespace Fqgw

/-- `RATE_LIMIT_WINDOW_MS = 60 * 1000`. -/
def RATE_LIMIT_WINDOW_MS : Nat := 60 * 1000

/-- `RATE_LIMIT_MAX_REQUESTS = 12`. -/
def RATE_LIMIT_MAX_REQUESTS : Nat := 12

/-- `DUPLICATE_WINDOW_MS = 10 * 60 * 1000`. -/
def DUPLICATE_WINDOW_MS : Nat := 10 * 60 * 1000

/-! ## Association lists standing in for JavaScript `Map`s -/

/-- `Map.get`: the value bound to `key`, if any. -/
def lookupAssoc {α : Type} (store : List (String × α)) (key : String) : Option α :=
  match store.find? (fun e => e.1 == key) with
  | some e => some e.2
  | none => none

/-- `Map.set`: overwrite the binding for `key` in place, or append it. -/
def setAssoc {α : Type} (store : List (String × α)) (key : String) (v : α) :
    List (String × α) :=
  match store with
  | [] => [(key, v)]
  | e :: rest => if e.1 == key then (key, v) :: rest else e :: setAssoc rest key v

/-! ## Normalizer -/

/-- Drop whitespace from both ends of a character list (`String.prototype.trim`). -/
def trimChars (cs : List Char) : List Char :=
  ((cs.dropWhile Char.isWhitespace).reverse.dropWhile Char.isWhitespace).reverse

/-- `value.trim()`, computed on the character list so that it evaluates by
kernel reduction. -/
def trimString (value : String) : String :=
  String.mk (trimChars value.data)

/-- `value.slice(0, maxLength)`. -/
def takeString (value : String) (maxLength : Nat) : String :=
  String.mk (value.data.take maxLength)

/-- `normalizeText(value, maxLength)` on a string input:
`value.trim().slice(0, maxLength)`. -/
def normalizeText (value : String) (maxLength : Nat) : String :=
  takeString (trimString value) maxLength

/-- `normalizeText` on a raw field: a non-string value yields `""`. -/
def normalizeTextOpt (value : Option String) (maxLength : Nat) : String :=
  match value with
  | none => ""
  | some s => normalizeText s maxLength

/-- JavaScript `value || dflt` on a raw string field (`undefined` and `""` are
falsy). -/
def jsOr (value : Option String) (dflt : String) : String :=
  match value with
  | none => dflt
  | some s => if s = "" then dflt else s

/-- JavaScript `value || dflt` on a string. -/
def jsOrStr (value dflt : String) : String :=
  if value = "" then dflt else value

/-- First-occurrence deduplication, the order-preserving semantics of
`[...new Set(list)]`. -/
def dedupKeepFirst (seen : List String) : List String → List String
  | [] => []
  | x :: xs =>
    if x ∈ seen then dedupKeepFirst seen xs
    else x :: dedupKeepFirst (x :: seen) xs

/-- `normalizeProductList(list)`: trim/cap each entry to 30 chars, drop the
empty ones, deduplicate keeping first occurrences. -/
def normalizeProductList (list : Option (List String)) : List String :=
  match list with
  | none => []
  | some l => dedupKeepFirst [] ((l.map (fun item => normalizeText item 30)).filter (· ≠ ""))

/-- `isValidPhone(phone)`: the regex `^1\d{10}$` — a `'1'` followed by exactly
ten decimal digits. -/
def isValidPhone (phone : String) : Bool :=
  match phone.data with
  | c :: rest => c == '1' && rest.length == 10 && rest.all Char.isDigit
  | [] => false

/-! ## Rate Limiter -/

/-- One entry of `rateLimitStore`: `{ windowStart, count }`. -/
structure RLEntry where
  windowStart : Nat
  count : Nat
deriving Repr, DecidableEq

/-- The `rateLimitStore` map. -/
abbrev RLStore := List (String × RLEntry)

/-- `cleanupRateLimitStore(now)`: evict every entry with
`now - windowStart >= RATE_LIMIT_WINDOW_MS`. -/
def cleanupRateLimitStore (store : RLStore) (now : Nat) : RLStore :=
  store.filter (fun e => now - e.2.windowStart < RATE_LIMIT_WINDOW_MS)

/-- `isRateLimited(key, now)`: evict expired entries, then reset to
`{windowStart: now, count: 1}` on a fresh or expired key (never limited), else
increment the counter and report whether it exceeds
`RATE_LIMIT_MAX_REQUESTS`.  Returns the decision and the updated store. -/
def isRateLimited (store : RLStore) (key : String) (now : Nat) : Bool × RLStore :=
  let store := cleanupRateLimitStore store now
  match lookupAssoc store key with
  | none => (false, setAssoc store key ⟨now, 1⟩)
  | some current =>
    if RATE_LIMIT_WINDOW_MS ≤ now - current.windowStart then
      (false, setAssoc store key ⟨now, 1⟩)
    else
      (decide (RATE_LIMIT_MAX_REQUESTS < current.count + 1),
        setAssoc store key ⟨current.windowStart, current.count + 1⟩)

/-- Fold `isRateLimited` over a list of `(key, now)` requests, collecting the
decisions. -/
def rlRun (store : RLStore) : List (String × Nat) → List Bool × RLStore
  | [] => ([], store)
  | (key, now) :: rest =>
    let (limited, store') := isRateLimited store key now
    let (decisions, store'') := rlRun store' rest
    (limited :: decisions, store'')

/-! ## Records -/

/-- A consultation record; `createdAt` is the millisecond timestamp behind the
stored ISO-8601 string. -/
structure Consultation where
  id : String
  name : String
  phone : String
  intentionProducts : List String
  sourcePage : String
  createdAt : Nat
deriving Repr, DecidableEq

/-- A phone-lead record. -/
structure PhoneLead where
  id : String
  phone : String
  source : String
  createdAt : Nat
deriving Repr, DecidableEq

/-- The parsed contents of `leads.json`:
`{ consultations: [...], phoneLeads: [...] }`. -/
structure StoreData where
  consultations : List Consultation
  phoneLeads : List PhoneLead
deriving Repr, DecidableEq

/-- The initial file contents written by `ensureDataFile`. -/
def initialData : StoreData := ⟨[], []⟩

/-- Raw body of a `POST /api/leads/consultation` request. -/
structure RawConsultation where
  name : Option String
  phone : Option String
  sourcePage : Option String
  intentionProducts : Option (List String)
deriving Repr, DecidableEq

/-- Raw body of a `POST /api/leads/phone` request. -/
structure RawPhoneLead where
  phone : Option String
  source : Option String
deriving Repr, DecidableEq

/-- Outcome of a submission request, by HTTP status:
201, 400, 429, 409, and the 500/502 storage-fault responses. -/
inductive SubmitResult where
  | accepted
  | invalidInput
  | rateLimited
  | duplicate
  | storeFault
deriving Repr, DecidableEq

/-! ## Duplicate Detector, record-scan variant -/

/-- `happenedWithinWindow(isoTime, now, windowMs)` for a parsable timestamp:
`now - ts <= windowMs` (a future `ts` gives a negative difference in
JavaScript and a truncated `0` here; both are within the window). -/
def happenedWithinWindow (ts now windowMs : Nat) : Bool :=
  decide (now - ts ≤ windowMs)

/-- Lexicographic comparison of character lists by code unit, the order
JavaScript's default `Array.prototype.sort` applies to strings. -/
def charListLe : List Char → List Char → Bool
  | [], _ => true
  | _ :: _, [] => false
  | a :: as, b :: bs =>
    if a.val < b.val then true
    else if b.val < a.val then false
    else charListLe as bs

/-- `a <= b` in JavaScript string comparison. -/
def strLe (a b : String) : Bool :=
  charListLe a.data b.data

/-- Insert into a `strLe`-sorted list of strings. -/
def insertSorted (x : String) : List String → List String
  | [] => [x]
  | y :: ys => if strLe x y = true then x :: y :: ys else y :: insertSorted x ys

/-- `[...a].sort()`: sort a list of strings (any total order gives the same
sorted-equality test, which is all this embedding uses it for). -/
def sortStrings : List String → List String
  | [] => []
  | x :: xs => insertSorted x (sortStrings xs)

/-- `sameProductSet(a, b)`: equal length and pointwise-equal after sorting
both sides. -/
def sameProductSet (a b : List String) : Bool :=
  a.length == b.length && sortStrings a == sortStrings b

/-- `isDuplicateConsultation(records, incoming, now)`: some prior record with
the same phone and sourcePage, a `createdAt` within the 10-minute window, and
the same product set. -/
def isDuplicateConsultation (records : List Consultation) (incoming : Consultation)
    (now : Nat) : Bool :=
  records.any (fun record =>
    record.phone == incoming.phone &&
    record.sourcePage == incoming.sourcePage &&
    happenedWithinWindow record.createdAt now DUPLICATE_WINDOW_MS &&
    sameProductSet record.intentionProducts incoming.intentionProducts)

/-- `isDuplicatePhoneLead(records, incoming, now)`. -/
def isDuplicatePhoneLead (records : List PhoneLead) (incoming : PhoneLead)
    (now : Nat) : Bool :=
  records.any (fun record =>
    record.phone == incoming.phone &&
    record.source == incoming.source &&
    happenedWithinWindow record.createdAt now DUPLICATE_WINDOW_MS)

/-! ## Duplicate Detector, in-memory table variant -/

/-- The `duplicateStore` map: equality key ↦ last accepted timestamp. -/
abbrev DupStore := List (String × Nat)

/-- `cleanupDuplicateStore(now)`: evict every entry with
`now - submittedAt > DUPLICATE_WINDOW_MS` (strict). -/
def cleanupDuplicateStore (store : DupStore) (now : Nat) : DupStore :=
  store.filter (fun e => now - e.2 ≤ DUPLICATE_WINDOW_MS)

/-- `hasDuplicateSubmission(key, now)`: evict, then report whether the key has
an entry within the window.  Returns the decision and the (evicted) store. -/
def hasDuplicateSubmission (store : DupStore) (key : String) (now : Nat) :
    Bool × DupStore :=
  let store := cleanupDuplicateStore store now
  match lookupAssoc store key with
  | some prev => (decide (now - prev ≤ DUPLICATE_WINDOW_MS), store)
  | none => (false, store)

/-- `markDuplicateSubmission(key, now)`. -/
def markDuplicateSubmission (store : DupStore) (key : String) (now : Nat) : DupStore :=
  setAssoc store key now

/-- The consultation equality key built by `handleConsultationSubmit`:
`` `consultation|${phone}|${sourcePage}|${[...products].sort().join(",")}` ``. -/
def consultationDupKey (phone sourcePage : String) (products : List String) : String :=
  "consultation|" ++ phone ++ "|" ++ sourcePage ++ "|" ++
    String.intercalate "," (sortStrings products)

/-- The phone-lead equality key `` `phone|${phone}|${source}` ``. -/
def phoneDupKey (phone source : String) : String :=
  "phone|" ++ phone ++ "|" ++ source

/-! ## Field normalization shared by the submission handlers -/

/-- `` const name = normalizeText(body.name, 40) ``. -/
def normName (body : RawConsultation) : String :=
  normalizeTextOpt body.name 40

/-- `` const phone = normalizeText(body.phone, 20) ``. -/
def normPhone (body : RawConsultation) : String :=
  normalizeTextOpt body.phone 20

/-- `` const intentionProducts = normalizeProductList(body.intentionProducts) ``. -/
def normProducts (body : RawConsultation) : List String :=
  normalizeProductList body.intentionProducts

/-- The rate-limit key `` `${clientIp}:${url.pathname}` `` of the
consultation endpoint. -/
def consultationRateKey (clientIp : String) : String :=
  clientIp ++ ":/api/leads/consultation"

/-- The rate-limit key of the phone-lead endpoint. -/
def phoneRateKey (clientIp : String) : String :=
  clientIp ++ ":/api/leads/phone"

/-! ## Record Store, JSON-file variant

`updateData(mutator)` chains every write onto the shared `writeQueue` promise
with `writeQueue = writeQueue.then(job)`.  A job reads the file, applies the
mutator and rewrites the file.  If the file write rejects, `writeQueue`
becomes a rejected promise, and — since `.then` is called with a fulfilment
callback only — every later job chained onto it inherits the rejection without
running.  The embedding carries that as the `poisoned` flag.  A rejected
`fs.writeFile` itself is modelled as leaving the previous file contents in
place (the all-or-nothing view of the persistence primitive). -/

namespace JsonStore

/-- The write-queue state: the current `leads.json` contents and whether
`writeQueue` is a rejected promise. -/
structure FileStore where
  data : StoreData
  poisoned : Bool
deriving Repr, DecidableEq

/-- `readData()`: parse the current file contents. -/
def readData (store : FileStore) : StoreData :=
  store.data

/-- Full server state of the JSON-file variant. -/
structure ServerState where
  rateLimit : RLStore
  store : FileStore
deriving Repr, DecidableEq

/-- The startup state: an empty rate-limit map and the `ensureDataFile`
contents with a healthy queue. -/
def initState : ServerState :=
  ⟨[], ⟨initialData, false⟩⟩

/-- The `sourcePage` normalization of this variant:
`normalizeText(body.sourcePage || "unknown", 40)` — note the missing trailing
`|| "unknown"`, so a whitespace-only field trims to `""`. -/
def consultationSourcePage (raw : Option String) : String :=
  normalizeText (jsOr raw "unknown") 40

/-- `POST /api/leads/consultation` of the JSON-file variant, one request:
rate limit by `ip:path`, normalize, validate, then queue
append-if-not-duplicate + persist.  `newId` is the `randomUUID()` drawn for
this request, `now` the wall clock, `persistOk` whether `fs.writeFile`
succeeds. -/
def consultationSubmit (st : ServerState) (clientIp : String) (body : RawConsultation)
    (newId : String) (now : Nat) (persistOk : Bool) : SubmitResult × ServerState :=
  let rl := isRateLimited st.rateLimit (consultationRateKey clientIp) now
  if rl.1 = true then
    (.rateLimited, ⟨rl.2, st.store⟩)
  else
    let name := normName body
    let phone := normPhone body
    let sourcePage := consultationSourcePage body.sourcePage
    let products := normProducts body
    if name = "" ∨ isValidPhone phone = false ∨ products = [] then
      (.invalidInput, ⟨rl.2, st.store⟩)
    else
      let record : Consultation := ⟨newId, name, phone, products, sourcePage, now⟩
      if st.store.poisoned = true then
        (.storeFault, ⟨rl.2, st.store⟩)
      else
        let data := readData st.store
        if isDuplicateConsultation data.consultations record now = true then
          if persistOk = true then (.duplicate, ⟨rl.2, ⟨data, false⟩⟩)
          else (.storeFault, ⟨rl.2, ⟨data, true⟩⟩)
        else
          if persistOk = true then
            (.accepted, ⟨rl.2, ⟨⟨data.consultations ++ [record], data.phoneLeads⟩, false⟩⟩)
          else
            (.storeFault, ⟨rl.2, ⟨data, true⟩⟩)

/-- `POST /api/leads/phone` of the JSON-file variant, one request. -/
def phoneSubmit (st : ServerState) (clientIp : String) (body : RawPhoneLead)
    (newId : String) (now : Nat) (persistOk : Bool) : SubmitResult × ServerState :=
  let rl := isRateLimited st.rateLimit (phoneRateKey clientIp) now
  if rl.1 = true then
    (.rateLimited, ⟨rl.2, st.store⟩)
  else
    let phone := normalizeTextOpt body.phone 20
    let source := normalizeText (jsOr body.source "unknown") 40
    if isValidPhone phone = false then
      (.invalidInput, ⟨rl.2, st.store⟩)
    else
      let record : PhoneLead := ⟨newId, phone, source, now⟩
      if st.store.poisoned = true then
        (.storeFault, ⟨rl.2, st.store⟩)
      else
        let data := readData st.store
        if isDuplicatePhoneLead data.phoneLeads record now = true then
          if persistOk = true then (.duplicate, ⟨rl.2, ⟨data, false⟩⟩)
          else (.storeFault, ⟨rl.2, ⟨data, true⟩⟩)
        else
          if persistOk = true then
            (.accepted, ⟨rl.2, ⟨⟨data.consultations, data.phoneLeads ++ [record]⟩, false⟩⟩)
          else
            (.storeFault, ⟨rl.2, ⟨data, true⟩⟩)

/-- One inbound submission request of the JSON-file variant. -/
inductive Request where
  | consultation (clientIp : String) (body : RawConsultation) (newId : String)
      (now : Nat) (persistOk : Bool)
  | phoneLead (clientIp : String) (body : RawPhoneLead) (newId : String)
      (now : Nat) (persistOk : Bool)

/-- Dispatch one request. -/
def serverStep (st : ServerState) : Request → SubmitResult × ServerState
  | .consultation ip body newId now persistOk =>
    consultationSubmit st ip body newId now persistOk
  | .phoneLead ip body newId now persistOk =>
    phoneSubmit st ip body newId now persistOk

/-- Run a sequence of requests. -/
def runServer (st : ServerState) : List Request → ServerState
  | [] => st
  | r :: rest => runServer (serverStep st r).2 rest

end JsonStore

/-! ## Feishu variant (`backend/server.js`)

No local record store: an accepted submission is persisted by the outbound
Feishu table call (`syncConsultationToFeishu` / `syncPhoneLeadToFeishu`,
surfaced as `persistOk`), and duplicate suppression uses the in-memory
`duplicateStore` table. `markDuplicateSubmission` runs only after the
persistence call returns. -/

namespace Feishu

/-- Mutable state of the Feishu variant: the rate-limit and duplicate maps,
plus the Feishu tables — the durable side of this variant, observed here as
the lists of records the outbound calls have successfully written. -/
structure ServerState where
  rateLimit : RLStore
  dupStore : DupStore
  consultationTable : List Consultation
  phoneTable : List PhoneLead
deriving Repr, DecidableEq

/-- Startup state: empty maps and tables. -/
def initState : ServerState := ⟨[], [], [], []⟩

/-- The `sourcePage` normalization of this variant:
`normalizeText(body.sourcePage || "unknown", 40) || "unknown"` — a field that
trims to the empty string also falls back to `"unknown"`. -/
def consultationSourcePage (raw : Option String) : String :=
  jsOrStr (normalizeText (jsOr raw "unknown") 40) "unknown"

/-- The duplicate key `handleConsultationSubmit` derives from a raw body. -/
def consultationKeyOf (body : RawConsultation) : String :=
  consultationDupKey (normPhone body) (consultationSourcePage body.sourcePage)
    (normProducts body)

/-- `handleConsultationSubmit`: rate limit by `ip:path`, normalize, validate,
reject on a duplicate key, persist to Feishu (a thrown call surfaces as the
502 storage fault), then — only after the call returned — record the
duplicate key. -/
def consultationSubmit (st : ServerState) (clientIp : String) (body : RawConsultation)
    (newId : String) (now : Nat) (persistOk : Bool) : SubmitResult × ServerState :=
  let rl := isRateLimited st.rateLimit (consultationRateKey clientIp) now
  if rl.1 = true then
    (.rateLimited, ⟨rl.2, st.dupStore, st.consultationTable, st.phoneTable⟩)
  else
    let name := normName body
    let phone := normPhone body
    let sourcePage := consultationSourcePage body.sourcePage
    let products := normProducts body
    if name = "" ∨ isValidPhone phone = false ∨ products = [] then
      (.invalidInput, ⟨rl.2, st.dupStore, st.consultationTable, st.phoneTable⟩)
    else
      let dupKey := consultationKeyOf body
      let dup := hasDuplicateSubmission st.dupStore dupKey now
      if dup.1 = true then
        (.duplicate, ⟨rl.2, dup.2, st.consultationTable, st.phoneTable⟩)
      else if persistOk = true then
        let record : Consultation := ⟨newId, name, phone, products, sourcePage, now⟩
        (.accepted, ⟨rl.2, markDuplicateSubmission dup.2 dupKey now,
          st.consultationTable ++ [record], st.phoneTable⟩)
      else
        (.storeFault, ⟨rl.2, dup.2, st.consultationTable, st.phoneTable⟩)

/-- The duplicate key `handlePhoneLeadSubmit` derives from a raw body. -/
def phoneKeyOf (body : RawPhoneLead) : String :=
  phoneDupKey (normalizeTextOpt body.phone 20)
    (jsOrStr (normalizeText (jsOr body.source "unknown") 40) "unknown")

/-- `handlePhoneLeadSubmit`. -/
def phoneSubmit (st : ServerState) (clientIp : String) (body : RawPhoneLead)
    (newId : String) (now : Nat) (persistOk : Bool) : SubmitResult × ServerState :=
  let rl := isRateLimited st.rateLimit (phoneRateKey clientIp) now
  if rl.1 = true then
    (.rateLimited, ⟨rl.2, st.dupStore, st.consultationTable, st.phoneTable⟩)
  else
    let phone := normalizeTextOpt body.phone 20
    let source := jsOrStr (normalizeText (jsOr body.source "unknown") 40) "unknown"
    if isValidPhone phone = false then
      (.invalidInput, ⟨rl.2, st.dupStore, st.consultationTable, st.phoneTable⟩)
    else
      let dupKey := phoneKeyOf body
      let dup := hasDuplicateSubmission st.dupStore dupKey now
      if dup.1 = true then
        (.duplicate, ⟨rl.2, dup.2, st.consultationTable, st.phoneTable⟩)
      else if persistOk = true then
        let record : PhoneLead := ⟨newId, phone, source, now⟩
        (.accepted, ⟨rl.2, markDuplicateSubmission dup.2 dupKey now,
          st.consultationTable, st.phoneTable ++ [record]⟩)
      else
        (.storeFault, ⟨rl.2, dup.2, st.consultationTable, st.phoneTable⟩)

end Feishu

/-! ## Query Engine: pagination -/

/-- The value returned by `paginate(items, page, pageSize)`. -/
structure PageResult (α : Type) where
  page : Nat
  pageSize : Nat
  total : Nat
  totalPages : Nat
  hasPrev : Bool
  hasNext : Bool
  items : List α
deriving Repr, DecidableEq

/-- `paginate(items, page, pageSize)`:
`totalPages = total === 0 ? 0 : Math.ceil(total / pageSize)`,
`safePage = totalPages === 0 ? 1 : Math.min(page, totalPages)`, and the slice
`items.slice(offset, offset + pageSize)` at `offset = (safePage-1)*pageSize`,
with `hasPrev = safePage > 1 && totalPages > 0` and
`hasNext = safePage < totalPages`. -/
def paginate {α : Type} (items : List α) (page pageSize : Nat) : PageResult α :=
  let total := items.length
  let totalPages := if total = 0 then 0 else (total + pageSize - 1) / pageSize
  let safePage := if totalPages = 0 then 1 else min page totalPages
  let offset := (safePage - 1) * pageSize
  { page := safePage
    pageSize := pageSize
    total := total
    totalPages := totalPages
    hasPrev := decide (1 < safePage) && decide (0 < totalPages)
    hasNext := decide (safePage < totalPages)
    items := (items.drop offset).take pageSize }

/-! ## Startup migration from the legacy flat file -/

namespace Migration

/-- Modelled from the spec: the SQLite-variant server that implements
`migrateLegacyIfEmpty()` is not among the sources — only the backend README
documents it ("if `leads.db` is still an empty database, read `leads.json`
and import it").  Per the spec, the step runs once at startup before any
other Store operation: if the durable store is empty and the legacy flat-file
snapshot exists and parses (`legacy = some snapshot`), it is imported
wholesale as the initial snapshot; a missing, unreadable or unparsable legacy
file (`legacy = none`) is treated as no legacy data; a durable store that
already holds a record is left alone. -/
def migrateLegacyIfEmpty (durable : StoreData) (legacy : Option StoreData) : StoreData :=
  if durable.consultations = [] ∧ durable.phoneLeads = [] then
    match legacy with
    | some snapshot => snapshot
    | none => durable
  else
    durable

/-- The number of records in a snapshot. -/
def recordCount (data : StoreData) : Nat :=
  data.consultations.length + data.phoneLeads.length

end Migration

/-! ## Concrete fixtures used by the closed theorems -/

/-- A well-formed consultation body. -/
def bodyOk : RawConsultation :=
  ⟨some "alice", some "13812345678", some "/a", some ["x", "y"]⟩

/-- The same consultation with the products listed in the other order. -/
def bodyOkSwapped : RawConsultation :=
  ⟨some "alice", some "13812345678", some "/a", some ["y", "x"]⟩

/-- A distinct well-formed consultation body. -/
def bodyOther : RawConsultation :=
  ⟨some "bob", some "13900000000", some "/b", some ["z"]⟩

/-- A body whose phone fails the format check. -/
def bodyBadPhone : RawConsultation :=
  ⟨some "alice", some "123", some "/a", some ["x"]⟩

/-- A body whose `sourcePage` consists of whitespace only. -/
def bodyBlankSource : RawConsultation :=
  ⟨some "alice", some "13812345678", some " ", some ["x"]⟩

/-- A rate-limit store in which the consultation key of ip `9.9.9.9` has
already counted 12 requests in the window that started at 1000. -/
def rlAtLimit : RLStore :=
  [("9.9.9.9:/api/leads/consultation", ⟨1000, 12⟩)]

/-- The analogous at-limit store for the phone-lead endpoint. -/
def rlPhoneAtLimit : RLStore :=
  [("9.9.9.9:/api/leads/phone", ⟨1000, 12⟩)]

/-- A phone-lead body whose phone fails the format check. -/
def rawPhoneBad : RawPhoneLead :=
  ⟨some "123", some "/x"⟩

/-- A two-record legacy snapshot. -/
def legacySample : StoreData :=
  ⟨[⟨"c1", "n", "13812345678", ["x"], "/a", 5⟩], [⟨"p1", "13900000000", "/b", 6⟩]⟩

/-- First step of the duplicate-window scenario: `bodyOk` accepted at 1000. -/
def c3run1 : SubmitResult × JsonStore.ServerState :=
  JsonStore.consultationSubmit JsonStore.initState "1.1.1.1" bodyOk "id1" 1000 true

/-- Second step: the permuted products resubmitted exactly 10 minutes
later. -/
def c3run2 : SubmitResult × JsonStore.ServerState :=
  JsonStore.consultationSubmit c3run1.2 "1.1.1.1" bodyOkSwapped "id2"
    (1000 + DUPLICATE_WINDOW_MS) true

/-- Third step: the same submission another second later. -/
def c3run3 : SubmitResult × JsonStore.ServerState :=
  JsonStore.consultationSubmit c3run2.2 "1.1.1.1" bodyOkSwapped "id3"
    (1000 + DUPLICATE_WINDOW_MS + 1) true

/-- The same three-step duplicate scenario against the Feishu variant's
in-memory duplicate table: `bodyOk` accepted at 1000, ... -/
def f3run1 : SubmitResult × Feishu.ServerState :=
  Feishu.consultationSubmit Feishu.initState "5.5.5.5" bodyOk "fid1" 1000 true

/-- ... the permuted products resubmitted exactly 10 minutes later, ... -/
def f3run2 : SubmitResult × Feishu.ServerState :=
  Feishu.consultationSubmit f3run1.2 "5.5.5.5" bodyOkSwapped "fid2"
    (1000 + DUPLICATE_WINDOW_MS) true

/-- ... and the same submission another second later. -/
def f3run3 : SubmitResult × Feishu.ServerState :=
  Feishu.consultationSubmit f3run2.2 "5.5.5.5" bodyOkSwapped "fid3"
    (1000 + DUPLICATE_WINDOW_MS + 1) true

/-- A well-formed phone-lead body. -/
def rawPhoneOk : RawPhoneLead :=
  ⟨some "13900000000", some "/cta"⟩

/-- Every record of a snapshot carries a phone accepted by `isValidPhone`. -/
def PhonesValid (data : StoreData) : Prop :=
  (∀ r ∈ data.consultations, isValidPhone r.phone = true) ∧
  (∀ r ∈ data.phoneLeads, isValidPhone r.phone = true)

/-!
# Theorems
-/

/-! ## Association-list lemmas -/

theorem lookupAssoc_eq_none_of_not_mem {α : Type} {l : List (String × α)} {key : String}
    (h : key ∉ l.map Prod.fst) : lookupAssoc l key = none := by
  induction l with
  | nil => rfl
  | cons e rest ih =>
    simp only [List.map_cons, List.mem_cons, not_or] at h
    simp only [lookupAssoc, List.find?]
    rw [show (e.1 == key) = false by simp [Ne.symm h.1]]
    exact ih h.2

theorem lookupAssoc_setAssoc_self {α : Type} (l : List (String × α)) (key : String) (v : α) :
    lookupAssoc (setAssoc l key v) key = some v := by
  induction l with
  | nil => simp [setAssoc, lookupAssoc, List.find?]
  | cons e rest ih =>
    by_cases h : e.1 = key
    · simp [setAssoc, h, lookupAssoc, List.find?]
    · have he : (e.1 == key) = false := by simp [h]
      simp only [setAssoc, he, Bool.false_eq_true, if_false]
      simp only [lookupAssoc, List.find?, he] at ih ⊢
      exact ih

theorem lookupAssoc_filter_none {α : Type} (p : String × α → Bool) {l : List (String × α)}
    {key : String} (h : lookupAssoc l key = none) :
    lookupAssoc (l.filter p) key = none := by
  induction l with
  | nil => rfl
  | cons e rest ih =>
    simp only [lookupAssoc, List.find?] at h
    rcases he : (e.1 == key) with _ | _
    · rw [he] at h
      by_cases hp : p e = true
      · simp only [List.filter_cons, if_pos hp, lookupAssoc, List.find?, he]
        exact ih h
      · simp only [List.filter_cons, if_neg hp]
        exact ih h
    · rw [he] at h
      simp at h

theorem lookupAssoc_filter {α : Type} (p : String × α → Bool) (l : List (String × α))
    (key : String) (hnd : (l.map Prod.fst).Nodup) :
    lookupAssoc (l.filter p) key =
      match lookupAssoc l key with
      | some v => if p (key, v) = true then some v else none
      | none => none := by
  induction l with
  | nil => rfl
  | cons e rest ih =>
    simp only [List.map_cons, List.nodup_cons] at hnd
    rcases he : (e.1 == key) with _ | _
    · have hne : e.1 ≠ key := by simpa using he
      by_cases hp : p e = true
      · simp only [List.filter_cons, if_pos hp, lookupAssoc, List.find?, he] at ih ⊢
        exact ih hnd.2
      · simp only [List.filter_cons, if_neg hp, lookupAssoc, List.find?, he] at ih ⊢
        exact ih hnd.2
    · have heq : e.1 = key := by simpa using he
      have hrest : lookupAssoc rest key = none :=
        lookupAssoc_eq_none_of_not_mem (by rw [← heq]; exact hnd.1)
      have hkey : (key, e.2) = e := by
        rw [← heq]
      by_cases hp : p e = true
      · simp only [List.filter_cons, if_pos hp, lookupAssoc, List.find?, he, hkey, hp]
        simp
      · simp only [List.filter_cons, if_neg hp, lookupAssoc, List.find?, he, hkey, hp]
        have h2 := lookupAssoc_filter_none p hrest
        simpa only [lookupAssoc] using h2

/-! ## C6 — pagination -/

/-- C6: for every record list, every `page ≥ 1` and every `pageSize` in
1..100, `paginate` computes `totalPages = ceil(total/pageSize)` (0 when
`total = 0`, witnessed here by the two ceiling inequalities), clamps an
out-of-range `page` to `totalPages` (to 1 when there are zero pages), returns
the clamped page's slice — never an empty page when the result set is
non-empty — and sets `hasPrev` exactly when the clamped page exceeds 1 with
at least one page, and `hasNext` exactly when the clamped page is below
`totalPages`. -/
theorem paginate_spec {α : Type} (items : List α) (page pageSize : Nat)
    (r : PageResult α) (hr : r = paginate items page pageSize)
    (hpage : 1 ≤ page) (hsize : 1 ≤ pageSize) (hsizeMax : pageSize ≤ 100) :
    (r.totalPages = if items.length = 0 then 0 else (items.length + pageSize - 1) / pageSize) ∧
    items.length ≤ r.totalPages * pageSize ∧
    (0 < items.length → (r.totalPages - 1) * pageSize < items.length) ∧
    (r.totalPages < page → r.page = max r.totalPages 1) ∧
    (page ≤ r.totalPages → r.page = page) ∧
    r.items = (items.drop ((r.page - 1) * pageSize)).take pageSize ∧
    (0 < items.length → r.items ≠ []) ∧
    (r.hasPrev = true ↔ 1 < r.page ∧ 0 < r.totalPages) ∧
    (r.hasNext = true ↔ r.page < r.totalPages) := by
  subst hr
  by_cases h0 : items.length = 0
  · rcases List.eq_nil_of_length_eq_zero h0 with rfl
    refine ⟨by simp [paginate], by simp [paginate], by simp, ?_, ?_, by simp [paginate], by simp, ?_, ?_⟩
    · intro _; simp [paginate]
    · intro h; simp [paginate] at h; omega
    · simp [paginate]
    · simp [paginate]
  · have hlen : 1 ≤ items.length := Nat.one_le_iff_ne_zero.mpr h0
    have hpos : 0 < pageSize := hsize
    have hdm := Nat.div_add_mod (items.length + pageSize - 1) pageSize
    have hmlt : (items.length + pageSize - 1) % pageSize < pageSize :=
      Nat.mod_lt _ hpos
    set tp := (items.length + pageSize - 1) / pageSize with htp
    have hmul : pageSize * tp = tp * pageSize := Nat.mul_comm _ _
    rw [hmul] at hdm
    have hub : items.length ≤ tp * pageSize := by omega
    have hlb : (tp - 1) * pageSize < items.length := by
      have : (tp - 1) * pageSize = tp * pageSize - pageSize := by
        rw [Nat.sub_mul, Nat.one_mul]
      omega
    have htp1 : 1 ≤ tp := by
      rw [htp, Nat.le_div_iff_mul_le hpos]
      omega
    have htpne : ¬ (if items.length = 0 then 0 else tp) = 0 := by
      simp [h0]; omega
    refine ⟨by simp [paginate, h0], ?_, ?_, ?_, ?_, rfl, ?_, ?_, ?_⟩
    · simpa [paginate, h0] using hub
    · intro _
      simpa [paginate, h0] using hlb
    · intro hlt
      simp only [paginate, if_neg h0] at hlt ⊢
      simp only [if_neg (by omega : ¬ tp = 0)]
      omega
    · intro hle
      simp only [paginate, if_neg h0] at hle ⊢
      simp only [if_neg (by omega : ¬ tp = 0)]
      omega
    · intro _
      have hif : (if tp = 0 then 1 else min page tp) = min page tp :=
        if_neg (by omega)
      have hoff : (min page tp - 1) * pageSize < items.length :=
        calc (min page tp - 1) * pageSize
            ≤ (tp - 1) * pageSize := Nat.mul_le_mul_right _ (by omega)
          _ < items.length := hlb
      have hne : 0 < ((items.drop ((min page tp - 1) * pageSize)).take pageSize).length := by
        rw [List.length_take, List.length_drop]
        omega
      simp only [paginate, if_neg h0, hif]
      exact List.ne_nil_of_length_pos hne
    · simp only [paginate, if_neg h0]
      constructor
      · intro h
        simp only [Bool.and_eq_true, decide_eq_true_eq] at h
        exact h
      · intro h
        simp only [Bool.and_eq_true, decide_eq_true_eq]
        exact h
    · simp only [paginate, if_neg h0, decide_eq_true_eq]

/-- Witness for `paginate_spec` at the spec's own example: 25 records with
`pageSize = 10`; the out-of-range `page = 4` clamps to page 3, which is not
empty. -/
theorem paginate_spec_witness :
    (paginate (List.range 25) 4 10).page = 3 ∧
    (paginate (List.range 25) 4 10).items ≠ [] := by
  have h := paginate_spec (List.range 25) 4 10 _ rfl
    (by decide) (by decide) (by decide)
  refine ⟨?_, h.2.2.2.2.2.2.1 (by decide)⟩
  have h4 := h.2.2.2.1
  rw [h4 (by decide)]
  decide

/-! ## C4 — rate limiter -/

theorem lookupAssoc_cleanup_none (store : RLStore) (now : Nat) (key : String)
    (h : lookupAssoc store key = none) :
    lookupAssoc (cleanupRateLimitStore store now) key = none :=
  lookupAssoc_filter_none _ h

theorem lookupAssoc_cleanup_some (store : RLStore) (now : Nat) (key : String) (e : RLEntry)
    (hnd : (store.map Prod.fst).Nodup) (hsome : lookupAssoc store key = some e) :
    lookupAssoc (cleanupRateLimitStore store now) key =
      if now - e.windowStart < RATE_LIMIT_WINDOW_MS then some e else none := by
  have h := lookupAssoc_filter
    (fun x => decide (now - x.2.windowStart < RATE_LIMIT_WINDOW_MS)) store key hnd
  rw [hsome] at h
  simp only at h
  by_cases hw : now - e.windowStart < RATE_LIMIT_WINDOW_MS
  · rw [if_pos hw]
    rw [if_pos (by simpa using hw)] at h
    exact h
  · rw [if_neg hw]
    rw [if_neg (by simpa using hw)] at h
    exact h

/-- C4: for every rate-limit key (in a store with the `Map` key discipline),
a first request — no binding for the key — or one arriving with
`now - windowStart ≥ 60s` resets the counter to `⟨now, 1⟩` and passes; a
later request inside the window increments the counter and is rejected
exactly when the post-increment count exceeds 12.  Consequently, of 13
consecutive requests in one window the first 12 pass and the 13th is
rejected, and a request after the window rolls over passes again. -/
theorem isRateLimited_spec :
    (∀ (store : RLStore) (key : String) (now : Nat),
      (store.map Prod.fst).Nodup →
      (lookupAssoc store key = none ∨
        ∃ e, lookupAssoc store key = some e ∧ RATE_LIMIT_WINDOW_MS ≤ now - e.windowStart) →
      (isRateLimited store key now).1 = false ∧
      lookupAssoc (isRateLimited store key now).2 key = some ⟨now, 1⟩) ∧
    (∀ (store : RLStore) (key : String) (now : Nat) (e : RLEntry),
      (store.map Prod.fst).Nodup →
      lookupAssoc store key = some e →
      now - e.windowStart < RATE_LIMIT_WINDOW_MS →
      ((isRateLimited store key now).1 = true ↔ RATE_LIMIT_MAX_REQUESTS < e.count + 1) ∧
      lookupAssoc (isRateLimited store key now).2 key = some ⟨e.windowStart, e.count + 1⟩) ∧
    ((rlRun [] ((List.range 13).map (fun i => ("k", i)))).1 =
        List.replicate 12 false ++ [true] ∧
      (isRateLimited (rlRun [] ((List.range 13).map (fun i => ("k", i)))).2 "k"
          RATE_LIMIT_WINDOW_MS).1 = false) := by
  refine ⟨?_, ?_, by decide⟩
  · intro store key now hnd h
    have hnone : lookupAssoc (cleanupRateLimitStore store now) key = none := by
      rcases h with h | ⟨e, he, hexp⟩
      · exact lookupAssoc_cleanup_none store now key h
      · rw [lookupAssoc_cleanup_some store now key e hnd he, if_neg (by omega)]
    simp only [isRateLimited, hnone]
    exact ⟨by simp, lookupAssoc_setAssoc_self _ _ _⟩
  · intro store key now e hnd hsome hwin
    have hsome' : lookupAssoc (cleanupRateLimitStore store now) key = some e := by
      rw [lookupAssoc_cleanup_some store now key e hnd hsome, if_pos hwin]
    simp only [isRateLimited, hsome']
    rw [if_neg (by omega)]
    refine ⟨by simp, lookupAssoc_setAssoc_self _ _ _⟩

/-- Witness for `isRateLimited_spec`: a fresh key passes, and a key whose
window already counted 12 requests is limited on the next request. -/
theorem isRateLimited_spec_witness :
    (isRateLimited [] "9.9.9.9:/api/leads/consultation" 5).1 = false ∧
    (isRateLimited rlAtLimit "9.9.9.9:/api/leads/consultation" 1500).1 = true := by
  refine ⟨(isRateLimited_spec.1 [] "9.9.9.9:/api/leads/consultation" 5
    (by decide) (Or.inl rfl)).1, ?_⟩
  have h := (isRateLimited_spec.2.1 rlAtLimit "9.9.9.9:/api/leads/consultation" 1500
    ⟨1000, 12⟩ (by decide) (by decide) (by decide)).1
  exact h.mpr (by decide)

/-! ## C5 — a failed persist leaves the snapshot untouched -/

/-- C5: when the persistence step of a write fails (`persistOk = false`), the
snapshot is left exactly as it was before the write began — a subsequent
`readData` returns the pre-write collection unchanged, with no partially
applied record, on both submission endpoints and from every starting state
(including one whose queue is already rejected). -/
theorem JsonStore.failed_persist_preserves_snapshot :
    (∀ (st : JsonStore.ServerState) (ip : String) (body : RawConsultation)
        (newId : String) (now : Nat),
      JsonStore.readData (JsonStore.consultationSubmit st ip body newId now false).2.store =
        JsonStore.readData st.store) ∧
    (∀ (st : JsonStore.ServerState) (ip : String) (body : RawPhoneLead)
        (newId : String) (now : Nat),
      JsonStore.readData (JsonStore.phoneSubmit st ip body newId now false).2.store =
        JsonStore.readData st.store) := by
  constructor
  · intro st ip body newId now
    simp only [JsonStore.consultationSubmit, JsonStore.readData]
    repeat' split
    all_goals first
    | rfl
    | exact Bool.noConfusion (show false = true by assumption)
  · intro st ip body newId now
    simp only [JsonStore.phoneSubmit, JsonStore.readData]
    repeat' split
    all_goals first
    | rfl
    | exact Bool.noConfusion (show false = true by assumption)

/-! ## C1 — a failed write rejects every later queued write -/

/-- C1 (code bug): after a write whose `fs.writeFile` rejects, `writeQueue`
is a rejected promise, and the next submission — valid, healthy persistence —
is *not* applied: its promise inherits the rejection (surfaced as the 500
storage-fault response) and the snapshot still holds no record at all. -/
theorem JsonStore.failed_write_blocks_later_writes :
    (JsonStore.consultationSubmit JsonStore.initState "1.1.1.1" bodyOk "id1" 0 false).2.store.poisoned
        = true ∧
    (JsonStore.consultationSubmit
        (JsonStore.consultationSubmit JsonStore.initState "1.1.1.1" bodyOk "id1" 0 false).2
        "1.1.1.1" bodyOther "id2" 1000 true).1 = SubmitResult.storeFault ∧
    (JsonStore.consultationSubmit
        (JsonStore.consultationSubmit JsonStore.initState "1.1.1.1" bodyOk "id1" 0 false).2
        "1.1.1.1" bodyOther "id2" 1000 true).2.store.data = initialData := by
  decide

/-! ## C2 — processing order: Rate Limiter before Normalizer -/

/-- C2 counterexample: the rate limit is checked *before* validation.  An
invalid submission (bad phone) on a fresh key is rejected as invalid input
but still installs a rate-limit counter of 1 for its key; and on a key whose
window is already at the limit, the same invalid submission is rejected as
`RateLimited`, not as invalid input. -/
theorem JsonStore.validation_after_rate_limit_cex :
    (JsonStore.consultationSubmit JsonStore.initState "9.9.9.9" bodyBadPhone "id" 1000 true).1
        = SubmitResult.invalidInput ∧
    lookupAssoc
        (JsonStore.consultationSubmit JsonStore.initState "9.9.9.9" bodyBadPhone "id" 1000 true).2.rateLimit
        "9.9.9.9:/api/leads/consultation" = some ⟨1000, 1⟩ ∧
    (JsonStore.consultationSubmit ⟨rlAtLimit, ⟨initialData, false⟩⟩ "9.9.9.9" bodyBadPhone
        "id" 1500 true).1 = SubmitResult.rateLimited := by
  decide

/-- C2 (amended): a submission passes through Rate Limiter → Normalizer →
Duplicate Detector → Record Store.  A request on an over-limit key is
rejected as `RateLimited` whatever its body; every request — valid or not —
updates the rate-limit store exactly as `isRateLimited` does (so an invalid
submission still counts against its key); a request that passes the rate
limiter with an invalid body is rejected as invalid input without touching
the record store.  The last conjunct states the same rate-limiter-first
ordering for the Feishu variant. -/
theorem JsonStore.rate_limiter_runs_first :
    (∀ (st : JsonStore.ServerState) (ip : String) (body : RawConsultation)
        (newId : String) (now : Nat) (persistOk : Bool),
      (isRateLimited st.rateLimit (consultationRateKey ip) now).1 = true →
      (JsonStore.consultationSubmit st ip body newId now persistOk).1
        = SubmitResult.rateLimited) ∧
    (∀ (st : JsonStore.ServerState) (ip : String) (body : RawConsultation)
        (newId : String) (now : Nat) (persistOk : Bool),
      (JsonStore.consultationSubmit st ip body newId now persistOk).2.rateLimit =
        (isRateLimited st.rateLimit (consultationRateKey ip) now).2) ∧
    (∀ (st : JsonStore.ServerState) (ip : String) (body : RawConsultation)
        (newId : String) (now : Nat) (persistOk : Bool),
      (isRateLimited st.rateLimit (consultationRateKey ip) now).1 = false →
      (normName body = "" ∨ isValidPhone (normPhone body) = false ∨ normProducts body = []) →
      (JsonStore.consultationSubmit st ip body newId now persistOk).1
          = SubmitResult.invalidInput ∧
      (JsonStore.consultationSubmit st ip body newId now persistOk).2.store = st.store) ∧
    (∀ (st : Feishu.ServerState) (ip : String) (body : RawConsultation)
        (newId : String) (now : Nat) (persistOk : Bool),
      (isRateLimited st.rateLimit (consultationRateKey ip) now).1 = true →
      (Feishu.consultationSubmit st ip body newId now persistOk).1
        = SubmitResult.rateLimited) := by
  refine ⟨?_, ?_, ?_, ?_⟩
  · intro st ip body newId now persistOk h
    simp only [JsonStore.consultationSubmit, h, if_true]
  · intro st ip body newId now persistOk
    simp only [JsonStore.consultationSubmit]
    repeat' split
    all_goals rfl
  · intro st ip body newId now persistOk hlim hinv
    simp only [JsonStore.consultationSubmit, hlim]
    rw [if_neg (by simp), if_pos hinv]
    exact ⟨rfl, rfl⟩
  · intro st ip body newId now persistOk h
    simp only [Feishu.consultationSubmit, h, if_true]

/-- Witness for `JsonStore.rate_limiter_runs_first`: an over-limit key turns
even a valid submission into `RateLimited`, and a fresh key with a bad phone
yields invalid input while leaving the snapshot alone. -/
theorem JsonStore.rate_limiter_runs_first_witness :
    (JsonStore.consultationSubmit ⟨rlAtLimit, ⟨initialData, false⟩⟩ "9.9.9.9" bodyOk
        "id" 1500 true).1 = SubmitResult.rateLimited ∧
    (JsonStore.consultationSubmit JsonStore.initState "1.1.1.1" bodyBadPhone
        "id" 0 true).1 = SubmitResult.invalidInput := by
  constructor
  · exact JsonStore.rate_limiter_runs_first.1 ⟨rlAtLimit, ⟨initialData, false⟩⟩ "9.9.9.9"
      bodyOk "id" 1500 true (by decide)
  · exact (JsonStore.rate_limiter_runs_first.2.2.1 JsonStore.initState "1.1.1.1"
      bodyBadPhone "id" 0 true (by decide) (by decide)).1

/-! ## C7 — phone validity -/

/-- C7 counterexample: a submission whose phone fails the regex is *not*
always rejected as invalid input — on an over-limit key it is rejected as
`RateLimited` (the rate limiter runs first). -/
theorem JsonStore.invalid_phone_not_invalid_input_cex :
    isValidPhone (normalizeTextOpt rawPhoneBad.phone 20) = false ∧
    (JsonStore.phoneSubmit ⟨rlPhoneAtLimit, ⟨initialData, false⟩⟩ "9.9.9.9" rawPhoneBad
        "id" 1500 true).1 = SubmitResult.rateLimited ∧
    (JsonStore.phoneSubmit ⟨rlPhoneAtLimit, ⟨initialData, false⟩⟩ "9.9.9.9" rawPhoneBad
        "id" 1500 true).1 ≠ SubmitResult.invalidInput := by
  decide

theorem JsonStore.consultationSubmit_preserves_phonesValid
    (st : JsonStore.ServerState) (ip : String) (body : RawConsultation)
    (newId : String) (now : Nat) (ok : Bool)
    (h : PhonesValid st.store.data) :
    PhonesValid (JsonStore.consultationSubmit st ip body newId now ok).2.store.data := by
  simp only [JsonStore.consultationSubmit, JsonStore.readData]
  repeat' split
  all_goals try exact h
  rename_i hlim hval hpois hdup hok
  refine ⟨?_, h.2⟩
  intro r hr
  rcases List.mem_append.mp hr with hr | hr
  · exact h.1 r hr
  · rcases List.mem_singleton.mp hr with rfl
    cases hb : isValidPhone (normPhone body) with
    | false => exact absurd (Or.inr (Or.inl hb)) hval
    | true => rfl

theorem JsonStore.phoneSubmit_preserves_phonesValid
    (st : JsonStore.ServerState) (ip : String) (body : RawPhoneLead)
    (newId : String) (now : Nat) (ok : Bool)
    (h : PhonesValid st.store.data) :
    PhonesValid (JsonStore.phoneSubmit st ip body newId now ok).2.store.data := by
  simp only [JsonStore.phoneSubmit, JsonStore.readData]
  repeat' split
  all_goals try exact h
  rename_i hlim hval hpois hdup hok
  refine ⟨h.1, ?_⟩
  intro r hr
  rcases List.mem_append.mp hr with hr | hr
  · exact h.2 r hr
  · rcases List.mem_singleton.mp hr with rfl
    cases hb : isValidPhone (normalizeTextOpt body.phone 20) with
    | false => exact absurd hb hval
    | true => rfl

theorem JsonStore.runServer_preserves_phonesValid (reqs : List JsonStore.Request)
    (st : JsonStore.ServerState) (h : PhonesValid st.store.data) :
    PhonesValid (JsonStore.runServer st reqs).store.data := by
  induction reqs generalizing st with
  | nil => exact h
  | cons r rest ih =>
    cases r with
    | consultation ip body newId now ok =>
      simp only [JsonStore.runServer, JsonStore.serverStep]
      exact ih _ (JsonStore.consultationSubmit_preserves_phonesValid st ip body newId now ok h)
    | phoneLead ip body newId now ok =>
      simp only [JsonStore.runServer, JsonStore.serverStep]
      exact ih _ (JsonStore.phoneSubmit_preserves_phonesValid st ip body newId now ok h)

/-- C7 (amended): every record in every reachable snapshot has a phone
matching `^1\d{10}$` — records are only appended after `isValidPhone`
passes — and a submission with an invalid phone that passes the rate limiter
is rejected as invalid input with the snapshot untouched (on an over-limit
key it is rejected as `RateLimited` instead; either way nothing is
persisted). -/
theorem JsonStore.phone_validity_spec :
    (∀ (reqs : List JsonStore.Request),
      PhonesValid (JsonStore.runServer JsonStore.initState reqs).store.data) ∧
    (∀ (st : JsonStore.ServerState) (ip : String) (body : RawConsultation)
        (newId : String) (now : Nat) (ok : Bool),
      (isRateLimited st.rateLimit (consultationRateKey ip) now).1 = false →
      isValidPhone (normPhone body) = false →
      (JsonStore.consultationSubmit st ip body newId now ok).1 = SubmitResult.invalidInput ∧
      (JsonStore.consultationSubmit st ip body newId now ok).2.store = st.store) ∧
    (∀ (st : JsonStore.ServerState) (ip : String) (body : RawPhoneLead)
        (newId : String) (now : Nat) (ok : Bool),
      (isRateLimited st.rateLimit (phoneRateKey ip) now).1 = false →
      isValidPhone (normalizeTextOpt body.phone 20) = false →
      (JsonStore.phoneSubmit st ip body newId now ok).1 = SubmitResult.invalidInput ∧
      (JsonStore.phoneSubmit st ip body newId now ok).2.store = st.store) := by
  refine ⟨?_, ?_, ?_⟩
  · intro reqs
    refine JsonStore.runServer_preserves_phonesValid reqs JsonStore.initState ⟨?_, ?_⟩
    · intro r hr
      simp [JsonStore.initState, initialData] at hr
    · intro r hr
      simp [JsonStore.initState, initialData] at hr
  · intro st ip body newId now ok hlim hphone
    simp only [JsonStore.consultationSubmit, hlim]
    rw [if_neg (by simp), if_pos (Or.inr (Or.inl hphone))]
    exact ⟨rfl, rfl⟩
  · intro st ip body newId now ok hlim hphone
    simp only [JsonStore.phoneSubmit, hlim]
    rw [if_neg (by simp), if_pos hphone]
    exact ⟨rfl, rfl⟩

/-- Witness for `JsonStore.phone_validity_spec`: a bad phone on a fresh key
is rejected as invalid input and stores nothing. -/
theorem JsonStore.phone_validity_spec_witness :
    (JsonStore.consultationSubmit JsonStore.initState "3.3.3.3" bodyBadPhone
        "id" 0 true).1 = SubmitResult.invalidInput ∧
    (JsonStore.consultationSubmit JsonStore.initState "3.3.3.3" bodyBadPhone
        "id" 0 true).2.store = JsonStore.initState.store :=
  JsonStore.phone_validity_spec.2.1 JsonStore.initState "3.3.3.3" bodyBadPhone
    "id" 0 true (by decide) (by decide)

/-! ## C8 — sourcePage default -/

/-- C8 counterexample: in the JSON-file variant a `sourcePage` consisting of
a single space is accepted and stored as the *empty string*, not as
`"unknown"` — `normalizeText(body.sourcePage || "unknown", 40)` has no
trailing `|| "unknown"` there. -/
theorem JsonStore.blank_sourcePage_stored_empty_cex :
    (JsonStore.consultationSubmit JsonStore.initState "1.1.1.1" bodyBlankSource
        "id1" 1000 true).1 = SubmitResult.accepted ∧
    (JsonStore.consultationSubmit JsonStore.initState "1.1.1.1" bodyBlankSource
        "id1" 1000 true).2.store.data.consultations.map (fun r => r.sourcePage) = [""] ∧
    ("" : String) ≠ "unknown" := by
  decide

/-- C8 (amended): an absent or empty raw `sourcePage` is stored as
`"unknown"` in both variants; a `sourcePage` that is non-empty but trims to
the empty string is normalized to `"unknown"` by the Feishu variant but is
stored as the empty string by the JSON-file variant.  The last two conjuncts
tie the normalizations to the stored records: an accepted submission appends
exactly one record carrying the variant's normalized `sourcePage`. -/
theorem sourcePage_default_spec :
    (JsonStore.consultationSourcePage none = "unknown" ∧
      JsonStore.consultationSourcePage (some "") = "unknown") ∧
    (Feishu.consultationSourcePage none = "unknown" ∧
      Feishu.consultationSourcePage (some "") = "unknown" ∧
      ∀ (s : String), trimString s = "" → Feishu.consultationSourcePage (some s) = "unknown") ∧
    (∀ (st : JsonStore.ServerState) (ip : String) (body : RawConsultation)
        (newId : String) (now : Nat) (ok : Bool),
      (JsonStore.consultationSubmit st ip body newId now ok).1 = SubmitResult.accepted →
      (JsonStore.consultationSubmit st ip body newId now ok).2.store.data.consultations.map
          (fun r => r.sourcePage) =
        st.store.data.consultations.map (fun r => r.sourcePage) ++
          [JsonStore.consultationSourcePage body.sourcePage]) ∧
    (∀ (st : Feishu.ServerState) (ip : String) (body : RawConsultation)
        (newId : String) (now : Nat) (ok : Bool),
      (Feishu.consultationSubmit st ip body newId now ok).1 = SubmitResult.accepted →
      (Feishu.consultationSubmit st ip body newId now ok).2.consultationTable.map
          (fun r => r.sourcePage) =
        st.consultationTable.map (fun r => r.sourcePage) ++
          [Feishu.consultationSourcePage body.sourcePage]) := by
  refine ⟨⟨by decide, by decide⟩, ⟨by decide, by decide, ?_⟩, ?_, ?_⟩
  · intro s hs
    by_cases h0 : s = ""
    · subst h0; decide
    · simp only [Feishu.consultationSourcePage, jsOr, if_neg h0]
      have hn : normalizeText s 40 = "" := by
        simp only [normalizeText, hs, takeString]
        rfl
      rw [hn]
      rfl
  · intro st ip body newId now ok h
    simp only [JsonStore.consultationSubmit, JsonStore.readData] at h ⊢
    split at h
    · exact absurd h (by simp)
    split at h
    · exact absurd h (by simp)
    split at h
    · exact absurd h (by simp)
    split at h
    · split at h <;> exact absurd h (by simp)
    split at h
    · rename_i hlim hval hpois hdup hok
      rw [if_neg hlim, if_neg hval, if_neg hpois, if_neg hdup, if_pos hok]
      simp
    · exact absurd h (by simp)
  · intro st ip body newId now ok h
    simp only [Feishu.consultationSubmit] at h ⊢
    split at h
    · exact absurd h (by simp)
    split at h
    · exact absurd h (by simp)
    split at h
    · exact absurd h (by simp)
    split at h
    · rename_i hlim hval hdup hok
      rw [if_neg hlim, if_neg hval, if_neg hdup, if_pos hok]
      simp
    · exact absurd h (by simp)

/-- Witness for `sourcePage_default_spec`: whitespace-only input falls back
to `"unknown"` in the Feishu variant, and an accepted JSON-variant
submission stores its normalized `sourcePage`. -/
theorem sourcePage_default_spec_witness :
    Feishu.consultationSourcePage (some "  ") = "unknown" ∧
    (JsonStore.consultationSubmit JsonStore.initState "1.1.1.1" bodyOk
        "id1" 1000 true).2.store.data.consultations.map (fun r => r.sourcePage) = ["/a"] := by
  constructor
  · exact sourcePage_default_spec.2.1.2.2 "  " (by decide)
  · rw [sourcePage_default_spec.2.2.1 JsonStore.initState "1.1.1.1" bodyOk "id1" 1000 true
      (by decide)]
    decide

/-! ## C3 — the 10-minute duplicate window -/

theorem sameProductSet_comm (a b : List String) : sameProductSet a b = sameProductSet b a := by
  simp only [sameProductSet]
  rw [Bool.eq_iff_iff]
  simp only [Bool.and_eq_true, beq_iff_eq]
  constructor
  · rintro ⟨h1, h2⟩
    exact ⟨h1.symm, h2.symm⟩
  · rintro ⟨h1, h2⟩
    exact ⟨h1.symm, h2.symm⟩

theorem lookupAssoc_filter_some {α : Type} (p : String × α → Bool) {l : List (String × α)}
    {key : String} {v : α} (h : lookupAssoc l key = some v) (hp : p (key, v) = true) :
    lookupAssoc (l.filter p) key = some v := by
  induction l with
  | nil => simp [lookupAssoc, List.find?] at h
  | cons e rest ih =>
    rcases he : (e.1 == key) with _ | _
    · simp only [lookupAssoc, List.find?, he] at h
      by_cases hpe : p e = true
      · simp only [List.filter_cons, if_pos hpe, lookupAssoc, List.find?, he]
        exact ih h
      · simp only [List.filter_cons, if_neg hpe]
        exact ih h
    · have heq : e.1 = key := by simpa using he
      simp only [lookupAssoc, List.find?, he] at h
      injection h with h2
      have hep : p e = true := by
        have hev : e = (key, v) := by
          cases e
          simp_all
        rw [hev]
        exact hp
      simp only [List.filter_cons, if_pos hep, lookupAssoc, List.find?, he]
      rw [h2]

theorem hasDuplicateSubmission_snd (d : DupStore) (key : String) (now : Nat) :
    (hasDuplicateSubmission d key now).2 = cleanupDuplicateStore d now := by
  simp only [hasDuplicateSubmission]
  rcases hl : lookupAssoc (cleanupDuplicateStore d now) key with _ | prev <;> simp [hl]

/-- C3: once a consultation is accepted at time `t`, a second submission
carrying the same equality key — same normalized phone and sourcePage, same
product set in any input order — arriving at `t'` with `t' - t ≤ 10 min` is
rejected as `DuplicateSubmission` with no record added, so the pair stores
exactly one record.  Proved for both cited implementations: the JSON-file
variant's full-history scan (first two conjuncts: the general statement and
the closed accept / duplicate-at-10:00 / accept-at-10:00.001 scenario from
an empty store) and the Feishu variant's in-memory duplicate table
(`hasDuplicateSubmission` / `handleConsultationSubmit`, last two
conjuncts: the same general statement against the marked key and the same
closed scenario against the Feishu table). -/
theorem duplicate_window_spec :
    (∀ (st st1 : JsonStore.ServerState) (ip1 ip2 : String)
        (body1 body2 : RawConsultation) (id1 id2 : String) (t t' : Nat),
      JsonStore.consultationSubmit st ip1 body1 id1 t true = (SubmitResult.accepted, st1) →
      t ≤ t' →
      t' - t ≤ DUPLICATE_WINDOW_MS →
      (isRateLimited st1.rateLimit (consultationRateKey ip2) t').1 = false →
      normName body2 ≠ "" →
      normPhone body2 = normPhone body1 →
      JsonStore.consultationSourcePage body2.sourcePage =
        JsonStore.consultationSourcePage body1.sourcePage →
      sameProductSet (normProducts body2) (normProducts body1) = true →
      (JsonStore.consultationSubmit st1 ip2 body2 id2 t' true).1 = SubmitResult.duplicate ∧
      (JsonStore.consultationSubmit st1 ip2 body2 id2 t' true).2.store.data =
        st1.store.data) ∧
    (c3run1.1 = SubmitResult.accepted ∧
      c3run2.1 = SubmitResult.duplicate ∧
      c3run2.2.store.data.consultations.map (fun r => r.id) = ["id1"] ∧
      c3run3.1 = SubmitResult.accepted ∧
      c3run3.2.store.data.consultations.map (fun r => r.id) = ["id1", "id3"]) ∧
    (∀ (st st1 : Feishu.ServerState) (ip1 ip2 : String)
        (body1 body2 : RawConsultation) (id1 id2 : String) (t t' : Nat),
      Feishu.consultationSubmit st ip1 body1 id1 t true = (SubmitResult.accepted, st1) →
      t ≤ t' →
      t' - t ≤ DUPLICATE_WINDOW_MS →
      (isRateLimited st1.rateLimit (consultationRateKey ip2) t').1 = false →
      normName body2 ≠ "" →
      normPhone body2 = normPhone body1 →
      Feishu.consultationSourcePage body2.sourcePage =
        Feishu.consultationSourcePage body1.sourcePage →
      sameProductSet (normProducts body2) (normProducts body1) = true →
      (Feishu.consultationSubmit st1 ip2 body2 id2 t' true).1 = SubmitResult.duplicate ∧
      (Feishu.consultationSubmit st1 ip2 body2 id2 t' true).2.consultationTable =
        st1.consultationTable) ∧
    (f3run1.1 = SubmitResult.accepted ∧
      f3run2.1 = SubmitResult.duplicate ∧
      f3run2.2.consultationTable.map (fun r => r.id) = ["fid1"] ∧
      f3run3.1 = SubmitResult.accepted ∧
      f3run3.2.consultationTable.map (fun r => r.id) = ["fid1", "fid3"]) := by
  refine ⟨?_, by decide, ?_, by decide⟩
  · intro st st1 ip1 ip2 body1 body2 id1 id2 t t' h1 ht hwin hnl hname2 hphone hsp hprod
    simp only [JsonStore.consultationSubmit, JsonStore.readData] at h1
    split at h1
    · exact absurd h1 (by simp)
    split at h1
    · exact absurd h1 (by simp)
    split at h1
    · exact absurd h1 (by simp)
    split at h1
    · split at h1 <;> exact absurd h1 (by simp)
    split at h1
    case _ =>
      rename_i hlim1 hval1 hpois1 hdup1 hok1
      rw [Prod.mk.injEq] at h1
      obtain ⟨-, hst1⟩ := h1
      have hp1 : isValidPhone (normPhone body1) = true := by
        cases hb : isValidPhone (normPhone body1) with
        | true => rfl
        | false => exact absurd (Or.inr (Or.inl hb)) hval1
      have hprod1 : normProducts body1 ≠ [] := fun hc => hval1 (Or.inr (Or.inr hc))
      have hlen : (normProducts body2).length = (normProducts body1).length := by
        have h := hprod
        simp only [sameProductSet, Bool.and_eq_true, beq_iff_eq] at h
        exact h.1
      have hprod2 : normProducts body2 ≠ [] := by
        intro hc
        apply hprod1
        apply List.eq_nil_of_length_eq_zero
        rw [← hlen, hc]
        rfl
      have hval2 : ¬(normName body2 = "" ∨ isValidPhone (normPhone body2) = false ∨
          normProducts body2 = []) := by
        push_neg
        refine ⟨hname2, ?_, hprod2⟩
        rw [hphone, hp1]
        simp
      subst hst1
      simp only [JsonStore.consultationSubmit, JsonStore.readData]
      rw [if_neg (by simp [hnl]), if_neg hval2, if_neg (by simp)]
      have hdup2 : isDuplicateConsultation
          (st.store.data.consultations ++
            [⟨id1, normName body1, normPhone body1, normProducts body1,
              JsonStore.consultationSourcePage body1.sourcePage, t⟩])
          ⟨id2, normName body2, normPhone body2, normProducts body2,
            JsonStore.consultationSourcePage body2.sourcePage, t'⟩ t' = true := by
        simp only [isDuplicateConsultation, List.any_append, List.any_cons, List.any_nil,
          Bool.or_false, Bool.or_eq_true]
        right
        simp only [Bool.and_eq_true, beq_iff_eq]
        refine ⟨⟨⟨hphone.symm, hsp.symm⟩, ?_⟩, ?_⟩
        · simp only [happenedWithinWindow, decide_eq_true_eq]
          exact hwin
        · rw [sameProductSet_comm]
          exact hprod
      rw [if_pos hdup2]
      exact ⟨rfl, rfl⟩
    · exact absurd h1 (by simp)
  · intro st st1 ip1 ip2 body1 body2 id1 id2 t t' h1 ht hwin hnl hname2 hphone hsp hprod
    simp only [Feishu.consultationSubmit] at h1
    split at h1
    · exact absurd h1 (by simp)
    split at h1
    · exact absurd h1 (by simp)
    split at h1
    · exact absurd h1 (by simp)
    split at h1
    case _ =>
      rename_i hlim1 hval1 hdup1 hok1
      rw [Prod.mk.injEq] at h1
      obtain ⟨-, hst1⟩ := h1
      have hp1 : isValidPhone (normPhone body1) = true := by
        cases hb : isValidPhone (normPhone body1) with
        | true => rfl
        | false => exact absurd (Or.inr (Or.inl hb)) hval1
      have hprod1 : normProducts body1 ≠ [] := fun hc => hval1 (Or.inr (Or.inr hc))
      have hlen : (normProducts body2).length = (normProducts body1).length := by
        have h := hprod
        simp only [sameProductSet, Bool.and_eq_true, beq_iff_eq] at h
        exact h.1
      have hprod2 : normProducts body2 ≠ [] := by
        intro hc
        apply hprod1
        apply List.eq_nil_of_length_eq_zero
        rw [← hlen, hc]
        rfl
      have hval2 : ¬(normName body2 = "" ∨ isValidPhone (normPhone body2) = false ∨
          normProducts body2 = []) := by
        push_neg
        refine ⟨hname2, ?_, hprod2⟩
        rw [hphone, hp1]
        simp
      have hsort : sortStrings (normProducts body2) = sortStrings (normProducts body1) := by
        have h := hprod
        simp only [sameProductSet, Bool.and_eq_true, beq_iff_eq] at h
        exact h.2
      have hkey : Feishu.consultationKeyOf body2 = Feishu.consultationKeyOf body1 := by
        simp only [Feishu.consultationKeyOf, consultationDupKey, hphone, hsp, hsort]
      subst hst1
      have hsnd := hasDuplicateSubmission_snd st.dupStore (Feishu.consultationKeyOf body1) t
      simp only [Feishu.consultationSubmit]
      rw [if_neg (by simp [hnl]), if_neg hval2, hkey, hsnd]
      have hlook : lookupAssoc
          (cleanupDuplicateStore
            (markDuplicateSubmission (cleanupDuplicateStore st.dupStore t)
              (Feishu.consultationKeyOf body1) t) t')
          (Feishu.consultationKeyOf body1) = some t := by
        simp only [cleanupDuplicateStore, markDuplicateSubmission]
        exact lookupAssoc_filter_some _ (lookupAssoc_setAssoc_self _ _ _) (by simpa using hwin)
      have hdup2 : (hasDuplicateSubmission
          (markDuplicateSubmission (cleanupDuplicateStore st.dupStore t)
            (Feishu.consultationKeyOf body1) t)
          (Feishu.consultationKeyOf body1) t').1 = true := by
        simp only [hasDuplicateSubmission]
        rw [hlook]
        simpa using hwin
      rw [if_pos hdup2]
      exact ⟨rfl, rfl⟩
    · exact absurd h1 (by simp)

/-- Witness for `duplicate_window_spec`: in each variant, the
permuted-products resubmission from a fresh client, 10 minutes after the
first acceptance, is rejected as a duplicate with the stored records
unchanged. -/
theorem duplicate_window_spec_witness :
    (JsonStore.consultationSubmit c3run1.2 "2.2.2.2" bodyOkSwapped "idw" 601000 true).1
        = SubmitResult.duplicate ∧
    (JsonStore.consultationSubmit c3run1.2 "2.2.2.2" bodyOkSwapped "idw" 601000 true).2.store.data
        = c3run1.2.store.data ∧
    (Feishu.consultationSubmit f3run1.2 "6.6.6.6" bodyOkSwapped "fidw" 601000 true).1
        = SubmitResult.duplicate ∧
    (Feishu.consultationSubmit f3run1.2 "6.6.6.6" bodyOkSwapped "fidw" 601000 true).2.consultationTable
        = f3run1.2.consultationTable := by
  have hj := duplicate_window_spec.1 JsonStore.initState c3run1.2 "1.1.1.1" "2.2.2.2"
    bodyOk bodyOkSwapped "id1" "idw" 1000 601000 (by decide) (by decide) (by decide)
    (by decide) (by decide) (by decide) (by decide) (by decide)
  have hf := duplicate_window_spec.2.2.1 Feishu.initState f3run1.2 "5.5.5.5" "6.6.6.6"
    bodyOk bodyOkSwapped "fid1" "fidw" 1000 601000 (by decide) (by decide) (by decide)
    (by decide) (by decide) (by decide) (by decide) (by decide)
  exact ⟨hj.1, hj.2, hf.1, hf.2⟩

/-! ## C9 — legacy startup migration (modelled from the spec) -/

/-- C9 (spec-modelled): with an empty durable store, a legacy snapshot that
exists and parses is imported wholesale — N records in, N records visible
after migration; a durable store that already holds at least one record
ignores the legacy file entirely; a legacy file that fails to read or parse
(`none`) is treated as no legacy data and leaves the store as it was. -/
theorem Migration.migrateLegacyIfEmpty_spec :
    (∀ (durable legacy : StoreData),
      durable.consultations = [] → durable.phoneLeads = [] →
      Migration.migrateLegacyIfEmpty durable (some legacy) = legacy ∧
      Migration.recordCount (Migration.migrateLegacyIfEmpty durable (some legacy)) =
        Migration.recordCount legacy) ∧
    (∀ (durable : StoreData) (legacy : Option StoreData),
      durable.consultations ≠ [] ∨ durable.phoneLeads ≠ [] →
      Migration.migrateLegacyIfEmpty durable legacy = durable) ∧
    (∀ (durable : StoreData),
      Migration.migrateLegacyIfEmpty durable none = durable) := by
  refine ⟨?_, ?_, ?_⟩
  · intro durable legacy h1 h2
    constructor
    · simp [Migration.migrateLegacyIfEmpty, h1, h2]
    · simp [Migration.migrateLegacyIfEmpty, h1, h2]
  · intro durable legacy h
    rcases h with h | h <;> simp [Migration.migrateLegacyIfEmpty, h]
  · intro durable
    simp only [Migration.migrateLegacyIfEmpty]
    split
    · rfl
    · rfl

/-- Witness for `Migration.migrateLegacyIfEmpty_spec`: an empty store imports
the two-record legacy snapshot; a non-empty store ignores the legacy file. -/
theorem Migration.migrateLegacyIfEmpty_spec_witness :
    Migration.migrateLegacyIfEmpty initialData (some legacySample) = legacySample ∧
    Migration.recordCount (Migration.migrateLegacyIfEmpty initialData (some legacySample)) = 2 ∧
    Migration.migrateLegacyIfEmpty legacySample (some initialData) = legacySample := by
  have h1 := Migration.migrateLegacyIfEmpty_spec.1 initialData legacySample rfl rfl
  have h2 := Migration.migrateLegacyIfEmpty_spec.2.1 legacySample (some initialData)
    (Or.inl (by decide))
  refine ⟨h1.1, ?_, h2⟩
  rw [h1.1]
  decide

/-! ## C10 — a failed outbound sync records no duplicate key -/

theorem lookupAssoc_mem {α : Type} {l : List (String × α)} {key : String} {v : α}
    (h : lookupAssoc l key = some v) : ∃ e ∈ l, e.2 = v := by
  simp only [lookupAssoc] at h
  cases hf : l.find? (fun e => e.1 == key) with
  | none =>
    rw [hf] at h
    cases h
  | some e =>
    rw [hf] at h
    simp only at h
    injection h with h2
    exact ⟨e, List.mem_of_find?_eq_some hf, h2⟩

theorem cleanupDuplicateStore_idem (d : DupStore) (now : Nat) :
    cleanupDuplicateStore (cleanupDuplicateStore d now) now = cleanupDuplicateStore d now := by
  simp [cleanupDuplicateStore, List.filter_filter]

theorem cleanupDuplicateStore_of_fresh (d : DupStore) (now : Nat)
    (h : ∀ e ∈ d, now - e.2 ≤ DUPLICATE_WINDOW_MS) :
    cleanupDuplicateStore d now = d := by
  apply List.filter_eq_self.mpr
  intro e he
  simpa using h e he

theorem hasDuplicateSubmission_false_lookup_none (d : DupStore) (key : String) (now : Nat)
    (h : (hasDuplicateSubmission d key now).1 = false) :
    lookupAssoc (cleanupDuplicateStore d now) key = none := by
  cases hl : lookupAssoc (cleanupDuplicateStore d now) key with
  | none => rfl
  | some prev =>
    obtain ⟨e, hmem, rfl⟩ := lookupAssoc_mem hl
    have hp : decide (now - e.2 ≤ DUPLICATE_WINDOW_MS) = true := by
      simpa using (List.mem_filter.mp hmem).2
    simp only [hasDuplicateSubmission, hl] at h
    rw [hp] at h
    cases h

/-- C10: in the in-memory duplicate-table variant, `markDuplicateSubmission`
runs only after the Feishu call returns, on both submission endpoints
(`handleConsultationSubmit` and `handlePhoneLeadSubmit`).  When the call
throws, the request surfaces the storage fault and the duplicate table keeps
exactly its (lazily evicted) entries — unchanged whenever no entry had
expired — so an immediately retried identical submission is accepted rather
than rejected as a duplicate.  The second conjunct of each endpoint's pair is
the success side: only then is the key recorded, with the submission time. -/
theorem Feishu.failed_sync_not_marked :
    (∀ (st : Feishu.ServerState) (ip : String) (body : RawConsultation)
        (newId : String) (now : Nat),
      (isRateLimited st.rateLimit (consultationRateKey ip) now).1 = false →
      ¬(normName body = "" ∨ isValidPhone (normPhone body) = false ∨ normProducts body = []) →
      (hasDuplicateSubmission st.dupStore (Feishu.consultationKeyOf body) now).1 = false →
      (Feishu.consultationSubmit st ip body newId now false).1 = SubmitResult.storeFault ∧
      (Feishu.consultationSubmit st ip body newId now false).2.dupStore =
        cleanupDuplicateStore st.dupStore now ∧
      ((∀ e ∈ st.dupStore, now - e.2 ≤ DUPLICATE_WINDOW_MS) →
        (Feishu.consultationSubmit st ip body newId now false).2.dupStore = st.dupStore) ∧
      (∀ (newId2 : String),
        (isRateLimited (Feishu.consultationSubmit st ip body newId now false).2.rateLimit
            (consultationRateKey ip) now).1 = false →
        (Feishu.consultationSubmit (Feishu.consultationSubmit st ip body newId now false).2
            ip body newId2 now true).1 = SubmitResult.accepted)) ∧
    (∀ (st : Feishu.ServerState) (ip : String) (body : RawConsultation)
        (newId : String) (now : Nat),
      (isRateLimited st.rateLimit (consultationRateKey ip) now).1 = false →
      ¬(normName body = "" ∨ isValidPhone (normPhone body) = false ∨ normProducts body = []) →
      (hasDuplicateSubmission st.dupStore (Feishu.consultationKeyOf body) now).1 = false →
      (Feishu.consultationSubmit st ip body newId now true).2.dupStore =
        markDuplicateSubmission (cleanupDuplicateStore st.dupStore now)
          (Feishu.consultationKeyOf body) now) ∧
    (∀ (st : Feishu.ServerState) (ip : String) (body : RawPhoneLead)
        (newId : String) (now : Nat),
      (isRateLimited st.rateLimit (phoneRateKey ip) now).1 = false →
      ¬(isValidPhone (normalizeTextOpt body.phone 20) = false) →
      (hasDuplicateSubmission st.dupStore (Feishu.phoneKeyOf body) now).1 = false →
      (Feishu.phoneSubmit st ip body newId now false).1 = SubmitResult.storeFault ∧
      (Feishu.phoneSubmit st ip body newId now false).2.dupStore =
        cleanupDuplicateStore st.dupStore now ∧
      ((∀ e ∈ st.dupStore, now - e.2 ≤ DUPLICATE_WINDOW_MS) →
        (Feishu.phoneSubmit st ip body newId now false).2.dupStore = st.dupStore) ∧
      (∀ (newId2 : String),
        (isRateLimited (Feishu.phoneSubmit st ip body newId now false).2.rateLimit
            (phoneRateKey ip) now).1 = false →
        (Feishu.phoneSubmit (Feishu.phoneSubmit st ip body newId now false).2
            ip body newId2 now true).1 = SubmitResult.accepted)) ∧
    (∀ (st : Feishu.ServerState) (ip : String) (body : RawPhoneLead)
        (newId : String) (now : Nat),
      (isRateLimited st.rateLimit (phoneRateKey ip) now).1 = false →
      ¬(isValidPhone (normalizeTextOpt body.phone 20) = false) →
      (hasDuplicateSubmission st.dupStore (Feishu.phoneKeyOf body) now).1 = false →
      (Feishu.phoneSubmit st ip body newId now true).2.dupStore =
        markDuplicateSubmission (cleanupDuplicateStore st.dupStore now)
          (Feishu.phoneKeyOf body) now) := by
  refine ⟨?_, ?_, ?_, ?_⟩
  · intro st ip body newId now hnl hval hdup
    have hred : Feishu.consultationSubmit st ip body newId now false =
        (SubmitResult.storeFault,
          ⟨(isRateLimited st.rateLimit (consultationRateKey ip) now).2,
            (hasDuplicateSubmission st.dupStore (Feishu.consultationKeyOf body) now).2,
            st.consultationTable, st.phoneTable⟩) := by
      simp only [Feishu.consultationSubmit]
      rw [if_neg (by simp [hnl]), if_neg hval, if_neg (by simp [hdup]), if_neg (by simp)]
    have hsnd := hasDuplicateSubmission_snd st.dupStore (Feishu.consultationKeyOf body) now
    refine ⟨by rw [hred], ?_, ?_, ?_⟩
    · rw [hred]
      exact hsnd
    · intro hfresh
      rw [hred]
      simpa [hsnd] using cleanupDuplicateStore_of_fresh st.dupStore now hfresh
    · intro newId2 hnl2
      rw [hred] at hnl2 ⊢
      have hnone := hasDuplicateSubmission_false_lookup_none st.dupStore
        (Feishu.consultationKeyOf body) now hdup
      have hnone2 : lookupAssoc
          (cleanupDuplicateStore (cleanupDuplicateStore st.dupStore now) now)
          (Feishu.consultationKeyOf body) = none := by
        rw [cleanupDuplicateStore_idem]
        exact hnone
      have hdup2 : (hasDuplicateSubmission (cleanupDuplicateStore st.dupStore now)
          (Feishu.consultationKeyOf body) now).1 = false := by
        simp only [hasDuplicateSubmission, hnone2]
      simp only [Feishu.consultationSubmit]
      rw [if_neg (by simpa [hsnd] using hnl2), if_neg hval,
        if_neg (by simp [hsnd, hdup2])]
      rfl
  · intro st ip body newId now hnl hval hdup
    have hsnd := hasDuplicateSubmission_snd st.dupStore (Feishu.consultationKeyOf body) now
    simp only [Feishu.consultationSubmit]
    rw [if_neg (by simp [hnl]), if_neg hval, if_neg (by simp [hdup]), hsnd]
    simp
  · intro st ip body newId now hnl hval hdup
    have hred : Feishu.phoneSubmit st ip body newId now false =
        (SubmitResult.storeFault,
          ⟨(isRateLimited st.rateLimit (phoneRateKey ip) now).2,
            (hasDuplicateSubmission st.dupStore (Feishu.phoneKeyOf body) now).2,
            st.consultationTable, st.phoneTable⟩) := by
      simp only [Feishu.phoneSubmit]
      rw [if_neg (by simp [hnl]), if_neg hval, if_neg (by simp [hdup]), if_neg (by simp)]
    have hsnd := hasDuplicateSubmission_snd st.dupStore (Feishu.phoneKeyOf body) now
    refine ⟨by rw [hred], ?_, ?_, ?_⟩
    · rw [hred]
      exact hsnd
    · intro hfresh
      rw [hred]
      simpa [hsnd] using cleanupDuplicateStore_of_fresh st.dupStore now hfresh
    · intro newId2 hnl2
      rw [hred] at hnl2 ⊢
      have hnone := hasDuplicateSubmission_false_lookup_none st.dupStore
        (Feishu.phoneKeyOf body) now hdup
      have hnone2 : lookupAssoc
          (cleanupDuplicateStore (cleanupDuplicateStore st.dupStore now) now)
          (Feishu.phoneKeyOf body) = none := by
        rw [cleanupDuplicateStore_idem]
        exact hnone
      have hdup2 : (hasDuplicateSubmission (cleanupDuplicateStore st.dupStore now)
          (Feishu.phoneKeyOf body) now).1 = false := by
        simp only [hasDuplicateSubmission, hnone2]
      simp only [Feishu.phoneSubmit]
      rw [if_neg (by simpa [hsnd] using hnl2), if_neg hval,
        if_neg (by simp [hsnd, hdup2])]
      rfl
  · intro st ip body newId now hnl hval hdup
    have hsnd := hasDuplicateSubmission_snd st.dupStore (Feishu.phoneKeyOf body) now
    simp only [Feishu.phoneSubmit]
    rw [if_neg (by simp [hnl]), if_neg hval, if_neg (by simp [hdup]), hsnd]
    simp

/-- Witness for `Feishu.failed_sync_not_marked`: on each endpoint, a valid
submission whose Feishu call throws leaves the duplicate table empty, and
the immediate retry is accepted. -/
theorem Feishu.failed_sync_not_marked_witness :
    (Feishu.consultationSubmit Feishu.initState "1.1.1.1" bodyOk "id1" 1000 false).1
        = SubmitResult.storeFault ∧
    (Feishu.consultationSubmit Feishu.initState "1.1.1.1" bodyOk "id1" 1000 false).2.dupStore
        = [] ∧
    (Feishu.consultationSubmit
        (Feishu.consultationSubmit Feishu.initState "1.1.1.1" bodyOk "id1" 1000 false).2
        "1.1.1.1" bodyOk "id2" 1000 true).1 = SubmitResult.accepted ∧
    (Feishu.phoneSubmit Feishu.initState "1.1.1.1" rawPhoneOk "p1" 1000 false).1
        = SubmitResult.storeFault ∧
    (Feishu.phoneSubmit Feishu.initState "1.1.1.1" rawPhoneOk "p1" 1000 false).2.dupStore
        = [] ∧
    (Feishu.phoneSubmit
        (Feishu.phoneSubmit Feishu.initState "1.1.1.1" rawPhoneOk "p1" 1000 false).2
        "1.1.1.1" rawPhoneOk "p2" 1000 true).1 = SubmitResult.accepted := by
  have h := Feishu.failed_sync_not_marked.1 Feishu.initState "1.1.1.1" bodyOk "id1" 1000
    (by decide) (by decide) (by decide)
  have hp := Feishu.failed_sync_not_marked.2.2.1 Feishu.initState "1.1.1.1" rawPhoneOk
    "p1" 1000 (by decide) (by decide) (by decide)
  refine ⟨h.1, ?_, h.2.2.2 "id2" (by decide), hp.1, ?_, hp.2.2.2 "p2" (by decide)⟩
  · rw [h.2.1]
    rfl
  · rw [hp.2.1]
    rfl

end Fqgw
